import Mathlib

/-!
Verification of the emissionsapi-worldmap-creator aggregation pipeline
(`emissionsapi_worldmap_creator/__init__.py`).

The repository fetches geospatial measurement points, aggregates them onto a
hexagonal grid (`prepare`), caches prepared results, and renders a map.  The
core of this development is a shallow embedding of `prepare`, `revert`,
`cache_load`/`cache_save`, `get_points` and the URL construction of
`download_points`.

Numeric values and coordinates are embedded as rationals (ℚ); the Python code
computes with IEEE doubles, for which the arithmetic identities below hold up
to rounding.  The external h3 grid indexer is embedded as an arbitrary pair of
functions: `geoToH3 : ℚ → ℚ → K` (point-to-cell, `h3.geo_to_h3` at the fixed
resolution) and `boundary : K → List (ℚ × ℚ)` (cell-to-polygon in (lat, lon)
vertex order, `h3.h3_to_geo_boundary`).  All theorems are universally
quantified over the indexer, matching the spec's description of it as a
deterministic external function.
-/

namespace EmissionsWorldmap

/-- H3 resolution of the Emissions API points (source line 15). -/
def H3_RESOLUTION : ℕ := 4

/-- One measurement point: geometry.y is latitude, geometry.x is longitude,
plus the `value` column of the dataframe. -/
structure Point where
  lat : ℚ
  lon : ℚ
  value : ℚ
deriving DecidableEq

/-- Source `revert(polygon)` (lines 18-26):
`return [(lon, lat) for lat, lon in polygon]`. -/
def revert (polygon : List (ℚ × ℚ)) : List (ℚ × ℚ) :=
  polygon.map (fun q => (q.2, q.1))

/-- The hex key of one point: `h3.geo_to_h3(lat, lon, RESOLUTION)`
(source line 113), abstract in the indexer `geoToH3`. -/
def pointKey {K : Type} (geoToH3 : ℚ → ℚ → K) (p : Point) : K :=
  geoToH3 p.lat p.lon

/-- The distinct hex keys of the input points: the group keys of
`df.groupby("hex")` (source line 117).  Row order of the pandas result
(sorted keys) is immaterial to every property below, so any duplicate-free
enumeration of the occupied keys represents it. -/
def distinctKeys {K : Type} [DecidableEq K] (geoToH3 : ℚ → ℚ → K)
    (pts : List Point) : List K :=
  (pts.map (pointKey geoToH3)).dedup

/-- The `value` column of the group of points falling into cell `k`. -/
def groupValues {K : Type} [DecidableEq K] (geoToH3 : ℚ → ℚ → K)
    (pts : List Point) (k : K) : List ℚ :=
  (pts.filter (fun p => pointKey geoToH3 p = k)).map Point.value

/-- Arithmetic mean of a list of rationals (pandas `"mean"` aggregation);
`[] ↦ 0` is unreachable because every group is nonempty. -/
def listMean (xs : List ℚ) : ℚ :=
  xs.sum / xs.length

/-- Source `df.groupby("hex", as_index=False).agg({"value": "mean"})`
(source line 117): one (hex, mean value) row per occupied cell. -/
def aggregate {K : Type} [DecidableEq K] (geoToH3 : ℚ → ℚ → K)
    (pts : List Point) : List (K × ℚ) :=
  (distinctKeys geoToH3 pts).map
    (fun k => (k, listMean (groupValues geoToH3 pts k)))

/-- One row of the prepared dataframe: columns `hex`, `value`, `geometry`.
`geometry` is the boundary polygon as (lon, lat) vertex pairs. -/
structure Cell (K : Type) where
  hex : K
  value : ℚ
  geometry : List (ℚ × ℚ)
deriving DecidableEq

/-- Polygon reconstruction (source lines 119-126):
`Polygon(revert(h3.h3_to_geo_boundary(h)))` for each row. -/
def toCell {K : Type} (boundary : K → List (ℚ × ℚ)) (kv : K × ℚ) : Cell K :=
  { hex := kv.1, value := kv.2, geometry := revert (boundary kv.1) }

/-- Maximum of a list of rationals (0 on the empty list, unreachable:
h3 boundaries are nonempty). -/
def listMax (xs : List ℚ) : ℚ :=
  match xs with
  | [] => 0
  | x :: t => t.foldl max x

/-- Minimum of a list of rationals (0 on the empty list, unreachable). -/
def listMin (xs : List ℚ) : ℚ :=
  match xs with
  | [] => 0
  | x :: t => t.foldl min x

/-- Source `bounds.maxx - bounds.minx` of one polygon: span of the first (x =
longitude) coordinates of its vertices. -/
def lonSpan (poly : List (ℚ × ℚ)) : ℚ :=
  listMax (poly.map Prod.fst) - listMin (poly.map Prod.fst)

/-- Source `bounds.maxy - bounds.miny` of one polygon: span of the second (y =
latitude) coordinates of its vertices. -/
def latSpan (poly : List (ℚ × ℚ)) : ℚ :=
  listMax (poly.map Prod.snd) - listMin (poly.map Prod.snd)

/-- The mask condition of source lines 128-135: the two sequential
`df.mask` calls both evaluate the bounds computed before either mask, so a
row ends up masked iff `maxy - miny > 180` or `maxx - minx > 180`. -/
def crossesMapBorder (poly : List (ℚ × ℚ)) : Prop :=
  180 < latSpan poly ∨ 180 < lonSpan poly

instance : DecidablePred crossesMapBorder := fun poly => by
  unfold crossesMapBorder
  infer_instance

/-- Source `df.mask(...)` on one row: a masked row has every column replaced by
NaN/None, which we embed as `none`; an unmasked row is kept as `some`. -/
def maskRow {K : Type} (c : Cell K) : Option (Cell K) :=
  if crossesMapBorder c.geometry then none else some c

/-- Source `prepare(df)` (lines 95-135) on the rows of the input dataframe:
hex assignment, groupby-mean, polygon reconstruction, border mask.
The result is the final dataframe: one entry per occupied cell, `none` for
rows masked out by the antimeridian filter. -/
def prepare {K : Type} [DecidableEq K] (geoToH3 : ℚ → ℚ → K)
    (boundary : K → List (ℚ × ℚ)) (pts : List Point) :
    List (Option (Cell K)) :=
  ((aggregate geoToH3 pts).map (toCell boundary)).map maskRow

/-- The aggregated cells present in the output of `prepare` (the non-masked
rows; a masked row carries no cell data). -/
def preparedCells {K : Type} [DecidableEq K] (geoToH3 : ℚ → ℚ → K)
    (boundary : K → List (ℚ × ℚ)) (pts : List Point) : List (Cell K) :=
  (prepare geoToH3 boundary pts).filterMap id

/-- The caller-visible state of the input dataframe: its point rows and its
`hex` column (absent before `prepare` touches it).  `prepare`'s first
statement, `df["hex"] = [...]` (source lines 111-114), is an in-place
column assignment on the caller's object; every later statement rebinds a
local name to a fresh frame. -/
structure Frame (K : Type) where
  rows : List Point
  hexCol : Option (List K)
deriving DecidableEq

/-- Function `prepare` including its effect on the caller's dataframe: returns the
caller's frame after the call together with the prepared result. -/
def prepareFrame {K : Type} [DecidableEq K] (geoToH3 : ℚ → ℚ → K)
    (boundary : K → List (ℚ × ℚ)) (f : Frame K) :
    Frame K × List (Option (Cell K)) :=
  ({ rows := f.rows, hexCol := some (f.rows.map (pointKey geoToH3)) },
   prepare geoToH3 boundary f.rows)

/-- Modelled from the spec: the coordinate validity ranges the spec claims
`prepare` enforces ("valid latitude in [-90, 90] and longitude in
[-180, 180]").  The source contains no such check. -/
def validPoint (p : Point) : Prop :=
  -90 ≤ p.lat ∧ p.lat ≤ 90 ∧ -180 ≤ p.lon ∧ p.lon ≤ 180

instance : DecidablePred validPoint := fun p => by
  unfold validPoint
  infer_instance

/-- Modelled from the spec: the failure mode the spec claims for `prepare`.
No `InvalidPointError` (or any other error) exists in the source. -/
inductive PrepareError where
  | invalidPoint
deriving DecidableEq

/-- Modelled from the spec: `prepare` as the spec describes it — failing
with `InvalidPointError` whenever some input point is out of range,
all-or-nothing.  Stated only to be compared against the source embedding
`prepare`, which is total. -/
def prepareSpec {K : Type} [DecidableEq K] (geoToH3 : ℚ → ℚ → K)
    (boundary : K → List (ℚ × ℚ)) (pts : List Point) :
    Except PrepareError (List (Option (Cell K))) :=
  if pts.all (fun p => decide (validPoint p)) then
    Except.ok (prepare geoToH3 boundary pts)
  else
    Except.error PrepareError.invalidPoint

/-! ### Calendar and timestamps

`download_points` and `cache_filename` format a Python `datetime.datetime`
value with `.isoformat()` and advance it with `datetime.timedelta(days=1)`.
The Python `datetime` library is external to the repository, so its
Gregorian-calendar behaviour is modelled here from its documented semantics
(proleptic Gregorian calendar, ISO-8601 `YYYY-MM-DDTHH:MM:SS` formatting).
-/

/-- Leap year of the proleptic Gregorian calendar. -/
def isLeapYear (y : ℕ) : Bool :=
  y % 4 = 0 && (y % 100 != 0 || y % 400 = 0)

/-- Number of days of month `m` (1-12) in a year whose leapness is `leap`. -/
def monthLength (leap : Bool) (m : ℕ) : ℕ :=
  if m = 2 then (if leap then 29 else 28)
  else if m = 4 ∨ m = 6 ∨ m = 9 ∨ m = 11 then 30
  else 31

/-- Number of days of a year. -/
def yearLength (y : ℕ) : ℕ :=
  if isLeapYear y then 366 else 365

/-- Sum of the lengths of months `1..m`. -/
def monthsSum (leap : Bool) : ℕ → ℕ
  | 0 => 0
  | m + 1 => monthsSum leap m + monthLength leap (m + 1)

/-- Days of year `y` strictly before the first of month `m`. -/
def daysBeforeMonth (leap : Bool) (m : ℕ) : ℕ :=
  monthsSum leap (m - 1)

/-- Sum of the lengths of years `1..y`. -/
def yearsSum : ℕ → ℕ
  | 0 => 0
  | y + 1 => yearsSum y + yearLength (y + 1)

/-- Days strictly before January 1 of year `y` (counting from year 1). -/
def daysBeforeYear (y : ℕ) : ℕ :=
  yearsSum (y - 1)

/-- A calendar date (`datetime.date`). -/
structure Date where
  year : ℕ
  month : ℕ
  day : ℕ
deriving DecidableEq

/-- A well-formed Gregorian date. -/
def Date.Valid (dt : Date) : Prop :=
  1 ≤ dt.year ∧ 1 ≤ dt.month ∧ dt.month ≤ 12 ∧
    1 ≤ dt.day ∧ dt.day ≤ monthLength (isLeapYear dt.year) dt.month

instance (dt : Date) : Decidable dt.Valid := by
  unfold Date.Valid
  infer_instance

/-- Ordinal day number of a date (day 1 = January 1 of year 1), the
`datetime.date.toordinal` of the Python library. -/
def Date.toOrdinal (dt : Date) : ℕ :=
  daysBeforeYear dt.year + daysBeforeMonth (isLeapYear dt.year) dt.month + dt.day

/-- The calendar successor of a date: the effect of adding
`datetime.timedelta(days=1)` on the date part. -/
def nextDay (dt : Date) : Date :=
  if dt.day < monthLength (isLeapYear dt.year) dt.month then
    { dt with day := dt.day + 1 }
  else if dt.month < 12 then
    { year := dt.year, month := dt.month + 1, day := 1 }
  else
    { year := dt.year + 1, month := 1, day := 1 }

/-- Zero-pad a number to two digits, as Python `%02d`. -/
def pad2 (n : ℕ) : String :=
  if n < 10 then "0" ++ toString n else toString n

/-- Zero-pad a number to four digits, as Python `%04d`. -/
def pad4 (n : ℕ) : String :=
  if n < 10 then "000" ++ toString n
  else if n < 100 then "00" ++ toString n
  else if n < 1000 then "0" ++ toString n
  else toString n

/-- Python `datetime.date.isoformat()`: `YYYY-MM-DD`. -/
def Date.isoformat (dt : Date) : String :=
  pad4 dt.year ++ "-" ++ pad2 dt.month ++ "-" ++ pad2 dt.day

/-- A time of day (`datetime.time`, microseconds zero). -/
structure Time where
  hour : ℕ
  minute : ℕ
  second : ℕ
deriving DecidableEq

/-- Python `datetime.time.isoformat()`: `HH:MM:SS`. -/
def Time.isoformat (t : Time) : String :=
  pad2 t.hour ++ ":" ++ pad2 t.minute ++ ":" ++ pad2 t.second

/-- A `datetime.datetime` value (microseconds zero). -/
structure DateTime where
  date : Date
  time : Time
deriving DecidableEq

/-- Python `datetime.datetime.isoformat()`: `YYYY-MM-DDTHH:MM:SS`. -/
def DateTime.isoformat (t : DateTime) : String :=
  t.date.isoformat ++ "T" ++ t.time.isoformat

/-- Python `datetime.timedelta(days=1) + day` (source line 45): one calendar day
later, time of day unchanged. -/
def addOneDay (t : DateTime) : DateTime :=
  { date := nextDay t.date, time := t.time }

/-- Seconds since the epoch of the calendar (day 1, midnight);
linearises a `DateTime` so "exactly one day after" is `+ 86400`. -/
def DateTime.toSeconds (t : DateTime) : ℕ :=
  t.date.toOrdinal * 86400 + t.time.hour * 3600 + t.time.minute * 60 + t.time.second

/-! ### Fetcher, cache gateway and `get_points` -/

/-- The URL requested by `download_points` (source lines 29-46):
`f"{url}/api/v2/{product}/geo.json?begin={day.isoformat()}&end={(timedelta(days=1) + day).isoformat()}"`.
`geopandas.read_file` is called exactly once, on exactly this URL. -/
def download_url (url product : String) (day : DateTime) : String :=
  url ++ "/api/v2/" ++ product ++ "/geo.json?begin=" ++ day.isoformat
    ++ "&end=" ++ (addOneDay day).isoformat

/-- Source `download_points(url, product, day)`: the single network read, embedded
against an abstract network `net` mapping a request URL to the points of
the response feature collection. -/
def download_points (net : String → List Point) (url product : String)
    (day : DateTime) : List Point :=
  net (download_url url product day)

/-- Source `cache_filename(product, day)` (lines 49-59):
`f"cache-{product}-{day.isoformat()}"`. -/
def cache_filename (product : String) (day : DateTime) : String :=
  "cache-" ++ product ++ "-" ++ day.isoformat

/-- The filesystem as seen by the cache gateway: a finite map from file
names to stored prepared datasets, newest entry first. -/
def CacheState (K : Type) : Type :=
  List (String × List (Option (Cell K)))

/-- Source `cache_load(product, day)` (lines 62-77): existence check on the
cache file, returning `none` (Python `None`) when absent, the stored
prepared dataset when present. -/
def cache_load {K : Type} (st : CacheState K) (product : String)
    (day : DateTime) : Option (List (Option (Cell K))) :=
  st.lookup (cache_filename product day)

/-- Source `cache_save(df, product, day)` (lines 80-92): write the prepared
dataset under the cache file name, overwriting any previous entry. -/
def cache_save {K : Type} (st : CacheState K) (df : List (Option (Cell K)))
    (product : String) (day : DateTime) : CacheState K :=
  (cache_filename product day, df) :: st

/-- Source `get_points(url, product, day, cache)` (lines 138-168), embedded
line by line: try the cache when `cache` is set, return a hit unchanged,
otherwise download, prepare, and save to the cache when `cache` is set.
Returns the filesystem state after the call together with the result. -/
def get_points {K : Type} [DecidableEq K] (geoToH3 : ℚ → ℚ → K)
    (boundary : K → List (ℚ × ℚ)) (net : String → List Point)
    (st : CacheState K) (url product : String) (day : DateTime)
    (cache : Bool) : CacheState K × List (Option (Cell K)) :=
  let df0 : Option (List (Option (Cell K))) :=
    if cache then cache_load st product day else none
  match df0 with
  | some df => (st, df)
  | none =>
    let df := prepare geoToH3 boundary (download_points net url product day)
    if cache then (cache_save st df product day, df) else (st, df)

/-! ### A concrete grid indexer for witnesses

The theorems below hold for every indexer; the witnesses instantiate them
with this small concrete one. -/

/-- Modelled from the spec: a concrete stand-in for the external
point-to-cell function, deterministic in (lat, lon).  Cell 1 is a cell
near the antimeridian, cell 0 an ordinary cell. -/
def modelKey : ℚ → ℚ → ℕ :=
  fun _lat lon => if 100 ≤ lon then 1 else 0

/-- Modelled from the spec: a concrete stand-in for the external
cell-to-boundary function, returning (lat, lon) vertex pairs.  Cell 1's
boundary spans the antimeridian (longitudes -179 and 179); cell 0's
boundary is a few degrees wide. -/
def modelBoundary : ℕ → List (ℚ × ℚ) :=
  fun k => if k = 1 then [(0, -179), (1, 179), (0, 178)] else [(0, 0), (1, 1), (0, 2)]

/-! ### Helper lemmas -/

theorem maskRow_eq_some {K : Type} {a c : Cell K} :
    maskRow a = some c ↔ ¬ crossesMapBorder a.geometry ∧ a = c := by
  unfold maskRow
  split
  · simp_all
  · simp_all

theorem mem_distinctKeys {K : Type} [DecidableEq K] {geoToH3 : ℚ → ℚ → K}
    {pts : List Point} {k : K} :
    k ∈ distinctKeys geoToH3 pts ↔ ∃ p ∈ pts, pointKey geoToH3 p = k := by
  simp [distinctKeys, List.mem_dedup, List.mem_map]

theorem mem_prepare_iff {K : Type} [DecidableEq K] {geoToH3 : ℚ → ℚ → K}
    {boundary : K → List (ℚ × ℚ)} {pts : List Point} {c : Cell K} :
    some c ∈ prepare geoToH3 boundary pts ↔
      c.hex ∈ distinctKeys geoToH3 pts ∧
      c.value = listMean (groupValues geoToH3 pts c.hex) ∧
      c.geometry = revert (boundary c.hex) ∧
      ¬ crossesMapBorder (revert (boundary c.hex)) := by
  simp only [prepare, List.mem_map, maskRow_eq_some, aggregate, toCell]
  constructor
  · rintro ⟨a, ⟨kv, ⟨k, hk, rfl⟩, rfl⟩, hcross, rfl⟩
    exact ⟨hk, rfl, rfl, hcross⟩
  · rintro ⟨hk, hv, hg, hcross⟩
    refine ⟨⟨c.hex, listMean (groupValues geoToH3 pts c.hex), revert (boundary c.hex)⟩,
      ⟨⟨c.hex, listMean (groupValues geoToH3 pts c.hex)⟩, ⟨c.hex, hk, rfl⟩, rfl⟩,
      hcross, ?_⟩
    cases c
    simp_all

theorem mem_preparedCells_iff {K : Type} [DecidableEq K] {geoToH3 : ℚ → ℚ → K}
    {boundary : K → List (ℚ × ℚ)} {pts : List Point} {c : Cell K} :
    c ∈ preparedCells geoToH3 boundary pts ↔ some c ∈ prepare geoToH3 boundary pts := by
  simp [preparedCells, List.mem_filterMap]

theorem mem_preparedHexes_iff {K : Type} [DecidableEq K] {geoToH3 : ℚ → ℚ → K}
    {boundary : K → List (ℚ × ℚ)} {pts : List Point} {k : K} :
    k ∈ (preparedCells geoToH3 boundary pts).map Cell.hex ↔
      k ∈ distinctKeys geoToH3 pts ∧ ¬ crossesMapBorder (revert (boundary k)) := by
  simp only [List.mem_map, mem_preparedCells_iff, mem_prepare_iff]
  constructor
  · rintro ⟨c, ⟨hk, _, _, hcross⟩, rfl⟩
    exact ⟨hk, hcross⟩
  · rintro ⟨hk, hcross⟩
    exact ⟨⟨k, listMean (groupValues geoToH3 pts k), revert (boundary k)⟩,
      ⟨hk, rfl, rfl, hcross⟩, rfl⟩

theorem listMean_perm {xs ys : List ℚ} (h : xs.Perm ys) : listMean xs = listMean ys := by
  unfold listMean
  rw [h.sum_eq, h.length_eq]

theorem groupValues_perm {K : Type} [DecidableEq K] {geoToH3 : ℚ → ℚ → K}
    {pts pts' : List Point} (h : pts.Perm pts') (k : K) :
    (groupValues geoToH3 pts k).Perm (groupValues geoToH3 pts' k) :=
  (h.filter _).map _

theorem distinctKeys_perm {K : Type} [DecidableEq K] {geoToH3 : ℚ → ℚ → K}
    {pts pts' : List Point} (h : pts.Perm pts') :
    (distinctKeys geoToH3 pts).Perm (distinctKeys geoToH3 pts') :=
  (h.map _).dedup

theorem mem_prepare_perm {K : Type} [DecidableEq K] {geoToH3 : ℚ → ℚ → K}
    {boundary : K → List (ℚ × ℚ)} {pts pts' : List Point} (h : pts.Perm pts')
    {c : Cell K} :
    some c ∈ prepare geoToH3 boundary pts ↔ some c ∈ prepare geoToH3 boundary pts' := by
  rw [mem_prepare_iff, mem_prepare_iff, (distinctKeys_perm h).mem_iff,
    listMean_perm (groupValues_perm h c.hex)]

/-! ### Claim theorems -/

/-- C1: every cell in the output of `prepare` has a mean value equal to the
arithmetic mean of the `value` fields of exactly the input points whose
(latitude, longitude) maps to that cell key, independent of input order. -/
theorem prepare_cell_mean {K : Type} [DecidableEq K] (geoToH3 : ℚ → ℚ → K)
    (boundary : K → List (ℚ × ℚ)) (pts : List Point) (c : Cell K)
    (hc : some c ∈ prepare geoToH3 boundary pts) :
    c.value =
      listMean ((pts.filter (fun p => pointKey geoToH3 p = c.hex)).map Point.value) ∧
    ∀ pts' : List Point, pts.Perm pts' →
      c.value =
        listMean ((pts'.filter (fun p => pointKey geoToH3 p = c.hex)).map Point.value) := by
  obtain ⟨-, hv, -, -⟩ := mem_prepare_iff.1 hc
  refine ⟨hv, fun pts' h => ?_⟩
  rw [hv]
  exact listMean_perm (groupValues_perm h c.hex)

/-- C1 witness: two points with values 10 and 20 fall into the same model
cell; the prepared cell for that key has mean value 15. -/
theorem prepare_cell_mean_witness :
    some (⟨0, 15, revert (modelBoundary 0)⟩ : Cell ℕ) ∈
      prepare modelKey modelBoundary [⟨0, 0, 10⟩, ⟨0, 1, 20⟩] ∧
    (⟨0, 15, revert (modelBoundary 0)⟩ : Cell ℕ).value =
      listMean (([⟨0, 0, 10⟩, ⟨0, 1, 20⟩].filter
        (fun p => pointKey modelKey p = (⟨0, 15, revert (modelBoundary 0)⟩ : Cell ℕ).hex)).map
          Point.value) := by
  have hm : some (⟨0, 15, revert (modelBoundary 0)⟩ : Cell ℕ) ∈
      prepare modelKey modelBoundary [⟨0, 0, 10⟩, ⟨0, 1, 20⟩] := by
    rw [mem_prepare_iff]
    refine ⟨?_, ?_, rfl, ?_⟩
    · simp [mem_distinctKeys, pointKey, modelKey]
    · simp only [groupValues, pointKey, modelKey]
      norm_num [listMean]
    · simp only [crossesMapBorder, latSpan, lonSpan, revert, modelBoundary]
      norm_num [listMax, listMin]
  exact ⟨hm, (prepare_cell_mean modelKey modelBoundary _ _ hm).1⟩

/-- C2: a cell occupied by the input is excluded from the prepared cells iff
its reconstructed boundary polygon spans more than 180 degrees in longitude
or latitude; otherwise it is retained.  (The source masks the whole row to
nulls rather than deleting it; the masked row carries no cell data, embedded
as a `none` entry, so the cell itself is absent from the prepared cells.) -/
theorem prepare_border_filter {K : Type} [DecidableEq K] (geoToH3 : ℚ → ℚ → K)
    (boundary : K → List (ℚ × ℚ)) (pts : List Point) (k : K)
    (hk : ∃ p ∈ pts, pointKey geoToH3 p = k) :
    (180 < lonSpan (revert (boundary k)) ∨ 180 < latSpan (revert (boundary k)) →
      k ∉ (preparedCells geoToH3 boundary pts).map Cell.hex) ∧
    (lonSpan (revert (boundary k)) ≤ 180 ∧ latSpan (revert (boundary k)) ≤ 180 →
      k ∈ (preparedCells geoToH3 boundary pts).map Cell.hex) := by
  constructor
  · intro hspan hmem
    obtain ⟨-, hcross⟩ := mem_preparedHexes_iff.1 hmem
    exact hcross (hspan.elim Or.inr Or.inl)
  · intro hspan
    refine mem_preparedHexes_iff.2 ⟨mem_distinctKeys.2 hk, ?_⟩
    rintro (h | h)
    · exact absurd hspan.2 (not_le.2 h)
    · exact absurd hspan.1 (not_le.2 h)

/-- C2 witness: with the model indexer, a point near the antimeridian
occupies cell 1, whose polygon spans 358 degrees of longitude — the cell is
excluded; a point at the origin occupies cell 0, spanning 2 degrees — the
cell is retained. -/
theorem prepare_border_filter_witness :
    (1 : ℕ) ∉ (preparedCells modelKey modelBoundary
        [⟨0, 150, 10⟩, ⟨0, 0, 20⟩]).map Cell.hex ∧
    (0 : ℕ) ∈ (preparedCells modelKey modelBoundary
        [⟨0, 150, 10⟩, ⟨0, 0, 20⟩]).map Cell.hex := by
  constructor
  · refine (prepare_border_filter modelKey modelBoundary _ 1 ?_).1 ?_
    · exact ⟨⟨0, 150, 10⟩, by simp, by norm_num [pointKey, modelKey]⟩
    · simp only [revert, modelBoundary, lonSpan, latSpan]
      norm_num [listMax, listMin]
  · refine (prepare_border_filter modelKey modelBoundary _ 0 ?_).2 ?_
    · exact ⟨⟨0, 0, 20⟩, by simp, by norm_num [pointKey, modelKey]⟩
    · simp only [revert, modelBoundary, lonSpan, latSpan]
      norm_num [listMax, listMin]

/-- C4 counterexample: `prepare` is not free of side effects on its input —
its first statement assigns the `hex` column on the caller's dataframe, so a
frame without a `hex` column is changed by the call. -/
theorem prepare_mutates_input :
    (prepareFrame modelKey modelBoundary
        { rows := [⟨0, 0, 1⟩], hexCol := none }).1 ≠
      ({ rows := [⟨0, 0, 1⟩], hexCol := none } : Frame ℕ) := by
  simp [prepareFrame]

/-- C4 amended: the only effect of `prepare` on the caller-supplied dataset
is overwriting its `hex` column with the computed cell keys; the point rows
themselves are unchanged and the returned result is a fresh dataset. -/
theorem prepareFrame_effect {K : Type} [DecidableEq K] (geoToH3 : ℚ → ℚ → K)
    (boundary : K → List (ℚ × ℚ)) (f : Frame K) :
    (prepareFrame geoToH3 boundary f).1.rows = f.rows ∧
    (prepareFrame geoToH3 boundary f).1.hexCol = some (f.rows.map (pointKey geoToH3)) ∧
    (prepareFrame geoToH3 boundary f).2 = prepare geoToH3 boundary f.rows :=
  ⟨rfl, rfl, rfl⟩

/-- C5: the cell keys of the aggregated output (before the antimeridian
filter) are exactly the hex cells occupied by the input points, with no
duplicates. -/
theorem aggregate_keys_exact {K : Type} [DecidableEq K] (geoToH3 : ℚ → ℚ → K)
    (pts : List Point) :
    ((aggregate geoToH3 pts).map Prod.fst).Nodup ∧
    ∀ k : K, k ∈ (aggregate geoToH3 pts).map Prod.fst ↔
      ∃ p ∈ pts, pointKey geoToH3 p = k := by
  have hfst : (aggregate geoToH3 pts).map Prod.fst = distinctKeys geoToH3 pts := by
    simp only [aggregate, List.map_map]
    exact List.map_id _
  rw [hfst]
  exact ⟨List.nodup_dedup _, fun k => mem_distinctKeys⟩

/-- C5 witness: two points in distinct model cells give exactly the two
occupied keys, without duplicates. -/
theorem aggregate_keys_exact_witness :
    ((aggregate modelKey [⟨0, 150, 10⟩, ⟨0, 0, 20⟩]).map Prod.fst).Nodup ∧
    (0 : ℕ) ∈ (aggregate modelKey [⟨0, 150, 10⟩, ⟨0, 0, 20⟩]).map Prod.fst := by
  refine ⟨(aggregate_keys_exact modelKey _).1, ?_⟩
  refine (aggregate_keys_exact modelKey _).2 0 |>.2 ?_
  exact ⟨⟨0, 0, 20⟩, by simp, by norm_num [pointKey, modelKey]⟩

/-- C6: permuting the input sequence leaves the set of
(cell key, mean value) pairs of the prepared output unchanged. -/
theorem prepare_perm_pairs {K : Type} [DecidableEq K] (geoToH3 : ℚ → ℚ → K)
    (boundary : K → List (ℚ × ℚ)) (pts pts' : List Point) (h : pts.Perm pts')
    (k : K) (v : ℚ) :
    (k, v) ∈ (preparedCells geoToH3 boundary pts).map (fun c => (c.hex, c.value)) ↔
    (k, v) ∈ (preparedCells geoToH3 boundary pts').map (fun c => (c.hex, c.value)) := by
  simp only [List.mem_map, mem_preparedCells_iff]
  constructor
  · rintro ⟨c, hc, he⟩
    exact ⟨c, (mem_prepare_perm h).1 hc, he⟩
  · rintro ⟨c, hc, he⟩
    exact ⟨c, (mem_prepare_perm h).2 hc, he⟩

/-- C6 witness: swapping the two input points preserves the prepared
(key, mean) pair (0, 15). -/
theorem prepare_perm_pairs_witness :
    ((0 : ℕ), (15 : ℚ)) ∈ (preparedCells modelKey modelBoundary
      [⟨0, 1, 20⟩, ⟨0, 0, 10⟩]).map (fun c => (c.hex, c.value)) := by
  refine (prepare_perm_pairs modelKey modelBoundary
    [⟨0, 0, 10⟩, ⟨0, 1, 20⟩] [⟨0, 1, 20⟩, ⟨0, 0, 10⟩]
    (List.Perm.swap _ _ _) 0 15).1 ?_
  refine List.mem_map.2 ⟨⟨0, 15, revert (modelBoundary 0)⟩, mem_preparedCells_iff.2 ?_, rfl⟩
  rw [mem_prepare_iff]
  refine ⟨?_, ?_, rfl, ?_⟩
  · simp [mem_distinctKeys, pointKey, modelKey]
  · simp only [groupValues, pointKey, modelKey]
    norm_num [listMean]
  · simp only [crossesMapBorder, latSpan, lonSpan, revert, modelBoundary]
    norm_num [listMax, listMin]

/-- C7: polygon reconstruction swaps each (lat, lon) vertex to (lon, lat),
keeping length and vertex order — the i-th output vertex is the i-th input
vertex with its coordinates swapped. -/
theorem revert_pointwise (polygon : List (ℚ × ℚ)) :
    (revert polygon).length = polygon.length ∧
    ∀ i : ℕ, (revert polygon)[i]? = (polygon[i]?).map (fun q => (q.2, q.1)) := by
  refine ⟨List.length_map _ _, fun i => ?_⟩
  simp [revert]

/-- C7 witness: on a two-vertex list, `revert` swaps each pair in place. -/
theorem revert_pointwise_witness :
    (revert [(1, 2), (3, 4)]).length = 2 ∧
    (revert [(1, 2), (3, 4)])[0]? = some ((2 : ℚ), (1 : ℚ)) ∧
    (revert [(1, 2), (3, 4)])[1]? = some ((4 : ℚ), (3 : ℚ)) := by
  refine ⟨(revert_pointwise [(1, 2), (3, 4)]).1, ?_, ?_⟩
  · rw [(revert_pointwise [(1, 2), (3, 4)]).2 0]
    rfl
  · rw [(revert_pointwise [(1, 2), (3, 4)]).2 1]
    rfl

/-- C3 counterexample: on a batch containing the out-of-range point
(lat 200, lon 0), the spec-modelled `prepareSpec` demands failure with
`InvalidPointError`, but the source `prepare` performs no validation and
returns a complete prepared dataset for that batch. -/
theorem prepare_no_invalid_point_error :
    ¬ validPoint ⟨200, 0, 5⟩ ∧
    prepareSpec modelKey modelBoundary [⟨200, 0, 5⟩] =
      Except.error PrepareError.invalidPoint ∧
    prepare modelKey modelBoundary [⟨200, 0, 5⟩] =
      [some ⟨0, 5, [(0, 0), (1, 1), (2, 0)]⟩] := by
  have hv : ¬ validPoint ⟨200, 0, 5⟩ := by
    simp only [validPoint]
    norm_num
  refine ⟨hv, ?_, ?_⟩
  · simp [prepareSpec, hv]
  · simp only [prepare, aggregate, distinctKeys, pointKey, modelKey]
    norm_num
    simp only [groupValues, pointKey, modelKey, listMean]
    norm_num [toCell, revert, modelBoundary, maskRow, crossesMapBorder,
      latSpan, lonSpan, listMax, listMin]

/-- C3 amended: `prepare` performs no coordinate validation and cannot fail;
every input batch — including batches containing out-of-range points — is
processed whole, producing one row per occupied cell. -/
theorem prepare_processes_all_points {K : Type} [DecidableEq K]
    (geoToH3 : ℚ → ℚ → K) (boundary : K → List (ℚ × ℚ)) (pts : List Point) :
    (prepare geoToH3 boundary pts).length = (distinctKeys geoToH3 pts).length ∧
    ∀ p ∈ pts, pointKey geoToH3 p ∈ distinctKeys geoToH3 pts := by
  constructor
  · simp [prepare, aggregate]
  · intro p hp
    exact mem_distinctKeys.2 ⟨p, hp, rfl⟩

/-- C3 amended witness: the out-of-range point (lat 200, lon 0) is itself
assigned a cell of the aggregation. -/
theorem prepare_processes_all_points_witness :
    pointKey modelKey ⟨200, 0, 5⟩ ∈ distinctKeys modelKey [⟨200, 0, 5⟩] :=
  (prepare_processes_all_points modelKey modelBoundary [⟨200, 0, 5⟩]).2 _ (by simp)

/-- C10: with `cache=False`, `get_points` touches no cache entry — the
filesystem state is returned unchanged — and the result is `prepare`
applied to the freshly downloaded points. -/
theorem get_points_no_cache {K : Type} [DecidableEq K] (geoToH3 : ℚ → ℚ → K)
    (boundary : K → List (ℚ × ℚ)) (net : String → List Point)
    (st : CacheState K) (url product : String) (day : DateTime) :
    get_points geoToH3 boundary net st url product day false =
      (st, prepare geoToH3 boundary (download_points net url product day)) :=
  rfl

/-- C8: with `cache=True`, a cache hit is returned as loaded, with no fetch,
aggregation, or cache write (state unchanged); on a miss — a valid,
non-error outcome — the downloaded points are prepared, saved under the
deterministic (product, day) key, and returned. -/
theorem get_points_cache_behaviour {K : Type} [DecidableEq K]
    (geoToH3 : ℚ → ℚ → K) (boundary : K → List (ℚ × ℚ))
    (net : String → List Point) (st : CacheState K) (url product : String)
    (day : DateTime) :
    (∀ d, cache_load st product day = some d →
      get_points geoToH3 boundary net st url product day true = (st, d)) ∧
    (cache_load st product day = none →
      get_points geoToH3 boundary net st url product day true =
        (cache_save st
          (prepare geoToH3 boundary (download_points net url product day))
          product day,
         prepare geoToH3 boundary (download_points net url product day))) := by
  constructor
  · intro d hd
    simp [get_points, hd]
  · intro hd
    simp [get_points, hd]

/-- C8 witness: a one-entry cache for ("o3", 2019-09-01) is hit and returned
unchanged; the empty cache misses and is populated with the prepared
download. -/
theorem get_points_cache_behaviour_witness :
    get_points modelKey modelBoundary (fun _ => []) ([(cache_filename "o3" ⟨⟨2019, 9, 1⟩, ⟨0, 0, 0⟩⟩, [some ⟨0, 1, []⟩])] : CacheState ℕ) "u" "o3" ⟨⟨2019, 9, 1⟩, ⟨0, 0, 0⟩⟩ true =
      (([(cache_filename "o3" ⟨⟨2019, 9, 1⟩, ⟨0, 0, 0⟩⟩, [some ⟨0, 1, []⟩])] : CacheState ℕ), [some ⟨0, 1, []⟩]) ∧
    get_points modelKey modelBoundary (fun _ => []) ([] : CacheState ℕ) "u" "o3" ⟨⟨2019, 9, 1⟩, ⟨0, 0, 0⟩⟩ true =
      (cache_save ([] : CacheState ℕ)
        (prepare modelKey modelBoundary (download_points (fun _ => []) "u" "o3" ⟨⟨2019, 9, 1⟩, ⟨0, 0, 0⟩⟩))
        "o3" ⟨⟨2019, 9, 1⟩, ⟨0, 0, 0⟩⟩,
       prepare modelKey modelBoundary (download_points (fun _ => []) "u" "o3" ⟨⟨2019, 9, 1⟩, ⟨0, 0, 0⟩⟩)) := by
  constructor
  · refine (get_points_cache_behaviour modelKey modelBoundary (fun _ => []) _ "u" "o3" _).1 [some ⟨0, 1, []⟩] ?_
    simp [cache_load, List.lookup]
  · refine (get_points_cache_behaviour modelKey modelBoundary (fun _ => []) _ "u" "o3" _).2 ?_
    rfl

/-! ### Calendar lemmas for C9 -/

theorem monthsSum_succ (leap : Bool) (m : ℕ) (h : 1 ≤ m) :
    monthsSum leap m = monthsSum leap (m - 1) + monthLength leap m := by
  obtain ⟨k, rfl⟩ : ∃ k, m = k + 1 := ⟨m - 1, by omega⟩
  simp [monthsSum]

theorem daysBeforeMonth_succ (leap : Bool) (m : ℕ) (h : 1 ≤ m) :
    daysBeforeMonth leap (m + 1) = daysBeforeMonth leap m + monthLength leap m := by
  unfold daysBeforeMonth
  have h1 : m + 1 - 1 = m := by omega
  rw [h1, monthsSum_succ leap m h]

theorem yearsSum_succ (y : ℕ) (h : 1 ≤ y) :
    yearsSum y = yearsSum (y - 1) + yearLength y := by
  obtain ⟨k, rfl⟩ : ∃ k, y = k + 1 := ⟨y - 1, by omega⟩
  simp [yearsSum]

theorem daysBeforeYear_succ (y : ℕ) (h : 1 ≤ y) :
    daysBeforeYear (y + 1) = daysBeforeYear y + yearLength y := by
  unfold daysBeforeYear
  have h1 : y + 1 - 1 = y := by omega
  rw [h1, yearsSum_succ y h]

theorem toOrdinal_nextDay (dt : Date) (h : dt.Valid) :
    (nextDay dt).toOrdinal = dt.toOrdinal + 1 := by
  obtain ⟨hy, hm1, hm12, hd1, hd2⟩ := h
  unfold nextDay
  by_cases hlt : dt.day < monthLength (isLeapYear dt.year) dt.month
  · simp only [if_pos hlt, Date.toOrdinal]
    omega
  · have hde : dt.day = monthLength (isLeapYear dt.year) dt.month :=
      le_antisymm hd2 (Nat.le_of_not_lt hlt)
    by_cases hm : dt.month < 12
    · simp only [if_neg hlt, if_pos hm, Date.toOrdinal]
      rw [daysBeforeMonth_succ _ _ hm1]
      omega
    · have hm' : dt.month = 12 := by omega
      rw [hm'] at hde
      simp only [if_neg hlt, if_neg hm, Date.toOrdinal]
      simp only [hm']
      have key : daysBeforeYear (dt.year + 1) =
          daysBeforeYear dt.year + yearLength dt.year := daysBeforeYear_succ _ hy
      have hb1 : daysBeforeMonth (isLeapYear (dt.year + 1)) 1 = 0 := by
        cases isLeapYear (dt.year + 1) <;> rfl
      have hyl : yearLength dt.year =
          daysBeforeMonth (isLeapYear dt.year) 12 +
            monthLength (isLeapYear dt.year) 12 := by
        cases hL : isLeapYear dt.year <;> simp only [yearLength, hL] <;> decide
      rw [key, hb1, hyl]
      omega

theorem toSeconds_addOneDay (t : DateTime) (h : t.date.Valid) :
    (addOneDay t).toSeconds = t.toSeconds + 86400 := by
  unfold DateTime.toSeconds addOneDay
  simp only
  rw [toOrdinal_nextDay t.date h]
  omega

/-- C9: `download_points` issues its single request to
`{url}/api/v2/{product}/geo.json?begin={day}&end={day+1}`, both timestamps
rendered by ISO-8601 date-time formatting (`YYYY-MM-DDTHH:MM:SS`), with the
end timestamp exactly one day (86400 seconds) after the begin timestamp. -/
theorem download_url_spec (url product : String) (day : DateTime)
    (h : day.date.Valid) :
    download_url url product day =
      url ++ "/api/v2/" ++ product ++ "/geo.json?begin=" ++ day.isoformat
        ++ "&end=" ++ (addOneDay day).isoformat ∧
    day.isoformat = day.date.isoformat ++ "T" ++ day.time.isoformat ∧
    (addOneDay day).isoformat =
      (nextDay day.date).isoformat ++ "T" ++ day.time.isoformat ∧
    (addOneDay day).toSeconds = day.toSeconds + 86400 :=
  ⟨rfl, rfl, rfl, toSeconds_addOneDay day h⟩

/-- C9 witness: across a year boundary, the end timestamp is exactly 86400
seconds after the begin timestamp. -/
theorem download_url_spec_witness :
    (addOneDay ⟨⟨2, 12, 31⟩, ⟨0, 0, 0⟩⟩).toSeconds =
      (⟨⟨2, 12, 31⟩, ⟨0, 0, 0⟩⟩ : DateTime).toSeconds + 86400 :=
  (download_url_spec "u" "p" _ (by decide)).2.2.2

end EmissionsWorldmap
